import Mathlib

/-!
Verification of the human-handoff automation script in `main.py` (browser-use/gemini-demo).

The development shallow-embeds the pieces of `main.py` that carry logic:

* the page-side signal bridge injected by `inject_start_button_and_wait`
  (a one-shot JavaScript promise resolved by a two-stage button UI),
* the `wait_for_start_button` custom action with its `button_clicked` flag,
* the `upload_resume` custom action,
* the task f-string composed inside `apply_to_job`, and
* the file-existence gate at the top of `main`.

Conventions of the embedding: the user's in-page behaviour is a list of click
events; an `Option` result models an `await` that may never complete (`none` =
the caller stays suspended forever, `some` = the call returns normally); the
effects a call performs (querying the current page, injecting the UI and
waiting on it, opening files, constructing browser/agent objects, running the
agent) are recorded explicitly so that "nothing happened" is provable.
-/

set_option maxRecDepth 100000
set_option linter.unusedVariables false

namespace GeminiDemo

/-- Single-quote character, used by the Python `str()` rendering of a dict. -/
def sq : String := String.singleton (Char.ofNat 39)

/-- Values of the flat applicant-data JSON object: strings or booleans
(`main.py` docstring, lines 233-250). -/
inductive PyVal where
  | str (s : String)
  | bool (b : Bool)
deriving DecidableEq, Repr

/-- Python `str()` of one value, as it appears inside `str(dict)`; string
values here contain no quote characters, so Python renders them with plain
single quotes. -/
def PyVal.pyStr : PyVal → String
  | .str s => sq ++ s ++ sq
  | .bool true => "True"
  | .bool false => "False"

/-- Python rendering of one `key: value` entry of a dict. -/
def pyDictItem (kv : String × PyVal) : String :=
  sq ++ kv.1 ++ sq ++ ": " ++ kv.2.pyStr

/-- Python `str()` of a dict (insertion-ordered, as in CPython), which is what
the f-string interpolation `\x7bapplicant_info\x7d` in `apply_to_job` produces. -/
def pyDictStr (d : List (String × PyVal)) : String :=
  "\x7b" ++ String.intercalate (", ") (d.map pyDictItem) ++ "\x7d"

/-- The example applicant record named by the spec's end-to-end scenario. -/
def johnRecord : List (String × PyVal) :=
  [("first_name", PyVal.str ("John")),
   ("last_name", PyVal.str ("Doe")),
   ("email", PyVal.str ("john.doe@example.com")),
   ("phone", PyVal.str ("555-555-5555")),
   ("age", PyVal.str ("21"))]

/-- Whether a character list begins with the pattern. -/
def charsStartsWith : List Char → List Char → Bool
  | [], _ => true
  | _ :: _, [] => false
  | p :: ps, c :: cs => p == c && charsStartsWith ps cs

/-- Whether the pattern occurs contiguously inside the character list. -/
def charsContains (pat : List Char) : List Char → Bool
  | [] => pat.isEmpty
  | c :: cs => charsStartsWith pat (c :: cs) || charsContains pat cs

/-- Substring test on strings (executable, used to evaluate containment
claims about the composed task). -/
def strContains (s pat : String) : Bool :=
  charsContains pat.data s.data

/-- Text of the task f-string in `apply_to_job` (main.py lines 283-331) up to
the `\x7bapplicant_info\x7d` interpolation, byte-for-byte (tabs included). -/
def taskBeforeInfo : String :=
  "\n\t- Your goal is to fill out and submit a job application form with the provided information.\n\t- Navigate to https://apply.appcast.io/jobs/50590620606/applyboard/apply/\n\t- FIRST: Use the wait_for_start_button action immediately after navigation. This will show a button for the user to click.\n\t- WAIT for the user to click the button before continuing with any form filling.\n\t- Scroll through the entire application and use extract_structured_data action to extract all the relevant information needed to fill out the job application form. use this information and return a structured output that can be used to fill out the entire form: "

/-- Text of the task f-string after the interpolation, first part (up to the
apostrophe inside the quoted field label on line 323). -/
def taskAfterInfoA : String :=
  ". Use the done action to finish the task. Fill out the job application form with the following information.\n\t\t- Before completing every step, refer to this information for accuracy. It is structured in a way to help you fill out the form and is the source of truth.\n\t- Follow these instructions carefully:\n\t\t- if anything pops up that blocks the form, close it out and continue filling out the form.\n\t\t- Do not skip any fields, even if they are optional. If you do not have the information, make your best guess based on the information provided.\n\t\tFill out the form from top to bottom, never skip a field to come back to it later. When filling out a field, only focus on one field per step. For each of these steps, scroll to the related text. These are the steps:\n\t\t\t1) use input_text action to fill out the following:\n\t\t\t\t- \"First name\"\n\t\t\t\t- \"Last name\"\n\t\t\t\t- \"Email\"\n\t\t\t\t- \"Phone number\"\n\t\t\t2) use the upload_file_to_element action to fill out the following:\n\t\t\t\t- Resume upload field\n\t\t\t3) use input_text action to fill out the following:\n\t\t\t\t- \"Postal code\"\n\t\t\t\t- \"Country\"\n\t\t\t\t- \"State\"\n\t\t\t\t- \"City\"\n\t\t\t\t- \"Address\"\n\t\t\t\t- \"Age\"\n\t\t\t4) use click action to select the following options:\n\t\t\t\t- \"Are you legally authorized to work in the country for which you are applying?\"\n\t\t\t\t- \"Will you now or in the future require sponsorship for employment visa status (e.g., H-1B visa status, etc.) to work legally for Rochester Regional Health?\"\n\t\t\t\t- \"Do you have, or are you in the process of obtaining, a professional license?\"\n\t\t\t\t\t- SELECT NO FOR THIS FIELD\n\t\t\t5) use input_text action to fill out the following:\n\t\t\t\t- \"What drew you to healthcare?\"\n\t\t\t6) use click action to select the following options:\n\t\t\t\t- \"How many years of experience do you have in a related role?\"\n\t\t\t\t- \"Gender\"\n\t\t\t\t- \"Race\"\n\t\t\t\t- \"Hispanic/Latino\"\n\t\t\t\t- \"Veteran status\"\n\t\t\t\t- \"Disability status\"\n\t\t\t7) use input_text action to fill out the following:\n\t\t\t\t- \"Today"

/-- Text of the task f-string after the interpolation, second part (from just
after that apostrophe to the closing triple quote). -/
def taskAfterInfoB : String :=
  "s date\"\n\t\t\t8) CLICK THE SUBMIT BUTTON AND CHECK FOR A SUCCESS SCREEN. Once there is a success screen, complete your end task of writing final_result and outputting it.\n\t- Before you start, create a step-by-step plan to complete the entire task. make sure the delegate a step for each field to be filled out.\n\t*** IMPORTANT ***:\n\t\t- You are not done until you have filled out every field of the form.\n\t\t- When you have completed the entire form, press the submit button to submit the application and use the done action once you have confirmed that the application is submitted\n\t\t- PLACE AN EMPHASIS ON STEP 4, the click action. That section should be filled out.\n\t\t- At the end of the task, structure your final_result as 1) a human-readable summary of all detections and actions performed on the page with 2) a list with all questions encountered in the page. Do not say \"see above.\" Include a fully written out, human-readable summary at the very end.\n\t"

/-- Full text of the task f-string after the interpolation point. -/
def taskAfterInfo : String := taskAfterInfoA ++ sq ++ taskAfterInfoB

/-- The task string composed inside `apply_to_job` (the Task Script Composer):
the fixed procedural text with `str(applicant_info)` interpolated.  The
f-string uses only `applicant_info`; `resume_path`, although in scope, is not
interpolated (it is passed to the agent separately via
`available_file_paths`). -/
def apply_to_job_task (applicant_info : List (String × PyVal)) (resume_path : String) : String :=
  taskBeforeInfo ++ (pyDictStr applicant_info ++ taskAfterInfo)

/-- User interactions available on the injected UI: clicking the initial
FILL OUT APPLICATION button, and clicking (or otherwise activating) the
SUBMIT button of the model-selection stage. -/
inductive UIEvent where
  | clickInitial
  | clickSubmit
deriving DecidableEq, Repr

/-- State of the page-side bridge script evaluated by
`inject_start_button_and_wait` (main.py lines 43-223): which controls are
present, whether the submit control still accepts pointer events, the state of
the promise returned to the evaluator, and how many times `resolve` has been
called. -/
structure BridgeState where
  initialPresent : Bool
  selectionPresent : Bool
  submitEnabled : Bool
  promise : Option String
  resolveCalls : Nat
deriving DecidableEq, Repr

/-- The only option of the model dropdown (main.py lines 141-143), hence the
value `dropdown.value` always holds. -/
def dropdownValue : String := "gemini-3-pro-preview"

/-- JavaScript promise semantics of calling `resolve v`: the first call fixes
the value, later calls leave it unchanged. -/
def promiseResolve (p : Option String) (v : String) : Option String :=
  match p with
  | none => some v
  | some w => some w

/-- Bridge state right after the script runs: the initial button is in the
page, the selection UI is not yet created, the promise is pending. -/
def bridgeInit : BridgeState :=
  { initialPresent := true, selectionPresent := false, submitEnabled := false,
    promise := none, resolveCalls := 0 }

/-- One user interaction against the bridge.  Clicking the initial button
removes it and creates the selection UI (lines 107-218).  Activating the
submit control, while it still accepts events, disables it
(`pointerEvents = none`, lines 196-198) and calls `resolve(dropdown.value)`
(line 209); once removed or disabled the controls ignore further events. -/
def bridgeStep (s : BridgeState) : UIEvent → BridgeState
  | UIEvent.clickInitial =>
      if s.initialPresent then
        { s with initialPresent := false, selectionPresent := true, submitEnabled := true }
      else s
  | UIEvent.clickSubmit =>
      if s.selectionPresent && s.submitEnabled then
        { s with submitEnabled := false,
                 promise := promiseResolve s.promise dropdownValue,
                 resolveCalls := s.resolveCalls + 1 }
      else s

/-- Bridge state reached after a sequence of user interactions. -/
def bridgeRun (events : List UIEvent) : BridgeState :=
  events.foldl bridgeStep bridgeInit

/-- Result of `await page.evaluate(...)` in `inject_start_button_and_wait`,
given the user's interactions: the evaluation returns the promise's value once
resolved, and never returns (`none`) while the promise is pending. -/
def inject_start_button_and_wait (events : List UIEvent) : Option String :=
  (bridgeRun events).promise

/-- States the bridge can reach: pending with the initial button, pending with
the selection UI, or resolved exactly once with the dropdown value. -/
def BridgeInv (s : BridgeState) : Prop :=
  s = bridgeInit ∨
  s = { initialPresent := false, selectionPresent := true, submitEnabled := true,
        promise := none, resolveCalls := 0 } ∨
  s = { initialPresent := false, selectionPresent := true, submitEnabled := false,
        promise := some dropdownValue, resolveCalls := 1 }

/-- Effects one call of `wait_for_start_button` can perform on the browser
session: asking for the current page, and injecting the UI and waiting on it. -/
inductive GateEffect where
  | getPage
  | injectAndWait
deriving DecidableEq, Repr

/-- Environment of one action invocation: what `browser_session.get_current_page()`
would yield — `none` when no page is available, otherwise the page together
with the user interactions that happen in it during an injected wait. -/
structure CallEnv where
  page : Option (List UIEvent)
deriving DecidableEq, Repr

/-- The `wait_for_start_button` custom action (main.py lines 266-277), as a
function of its invocation environment and the `button_clicked` flag.  The
result is `none` when the call suspends forever (page present but the promise
never resolves), and otherwise `some` of: the returned string, the flag after
the call, and the effects performed. -/
def wait_for_start_button (browser_session : CallEnv) (button_clicked : Bool) :
    Option (String × Bool × List GateEffect) :=
  if !button_clicked then
    match browser_session.page with
    | some events =>
        match inject_start_button_and_wait events with
        | some _ =>
            some ("User clicked start button - proceeding with form filling", true,
              [GateEffect.getPage, GateEffect.injectAndWait])
        | none => none
    | none => some ("Error: Could not get current page", button_clicked, [GateEffect.getPage])
  else
    some ("Button already clicked, continuing", button_clicked, [])

/-- Parameter object built by `upload_resume` (browser_use `UploadFileAction`). -/
structure UploadFileAction where
  path : String
  index : Nat
deriving DecidableEq, Repr

/-- The `upload_resume` custom action (main.py lines 261-264): it constructs an
`UploadFileAction` from the closed-over resume path, never uses it, and
returns a fixed string whatever the browser session looks like. -/
def upload_resume (resume_path : String) (browser_session : CallEnv) : String :=
  let params := UploadFileAction.mk resume_path 0
  "Ready to upload resume"

/-- Observable milestones of a run of `main`/`apply_to_job`: opening the
applicant-data file, constructing the Browser, constructing the Agent, and
running the agent. -/
inductive MainEvent where
  | openFile (path : String)
  | constructBrowser
  | constructAgent
  | agentRun
deriving DecidableEq, Repr

/-- The error `main` raises when an input path does not exist. -/
inductive MainError where
  | fileNotFound (message : String)
deriving DecidableEq, Repr

/-- Control flow of `main` (main.py lines 350-359) followed by `apply_to_job`
(lines 281, 336-345), as a function of which paths exist: the two existence
checks run first; only if both pass is the data file opened, the browser and
agent constructed, and the agent run.  The first component lists the
milestones reached, the second the raised error, if any. -/
def mainRun (fileExists : String → Bool) (applicant_data_path resume_path : String) :
    List MainEvent × Option MainError :=
  if !fileExists applicant_data_path then
    ([], some (MainError.fileNotFound ("Applicant data file not found: " ++ applicant_data_path)))
  else if !fileExists resume_path then
    ([], some (MainError.fileNotFound ("Resume file not found: " ++ resume_path)))
  else
    ([MainEvent.openFile applicant_data_path, MainEvent.constructBrowser,
      MainEvent.constructAgent, MainEvent.agentRun], none)

/-- One step of the bridge preserves the set of reachable states. -/
theorem bridgeStep_inv (s : BridgeState) (e : UIEvent) (h : BridgeInv s) :
    BridgeInv (bridgeStep s e) := by
  rcases h with h | h | h <;> subst h <;> cases e <;> unfold BridgeInv <;> decide

/-- Every run of the bridge lands in a reachable state. -/
theorem bridgeRun_inv (events : List UIEvent) : BridgeInv (bridgeRun events) := by
  have h : ∀ (l : List UIEvent) (s : BridgeState), BridgeInv s →
      BridgeInv (List.foldl bridgeStep s l) := by
    intro l
    induction l with
    | nil => intro s hs; exact hs
    | cons e t ih => intro s hs; exact ih (bridgeStep s e) (bridgeStep_inv s e hs)
  exact h events bridgeInit (Or.inl rfl)

/-- A run containing no submit activation never touches the promise. -/
theorem bridgeRun_promise_of_no_submit (l : List UIEvent) :
    ∀ s : BridgeState, UIEvent.clickSubmit ∉ l →
      (List.foldl bridgeStep s l).promise = s.promise := by
  induction l with
  | nil => intro s _; rfl
  | cons e t ih =>
      intro s h
      have he : e ≠ UIEvent.clickSubmit := fun hh => h (hh ▸ List.mem_cons_self e t)
      have ht : UIEvent.clickSubmit ∉ t := fun hh => h (List.mem_cons_of_mem e hh)
      have hi : e = UIEvent.clickInitial := by
        cases e
        · rfl
        · exact absurd rfl he
      subst hi
      rw [List.foldl_cons, ih (bridgeStep s UIEvent.clickInitial) ht]
      by_cases hp : s.initialPresent <;> simp [bridgeStep, hp]

/-- C1: the Human Gate Action is idempotent within one run — after a first
invocation that succeeded (a page was available and the wait completed, so the
call returned with the flag set), a second invocation performs no effect at
all (no page query, no UI injection, no wait) and returns the no-op string
"Button already clicked, continuing". -/
theorem wait_for_start_button_idempotent (env1 env2 : CallEnv) (s1 : String)
    (effects : List GateEffect)
    (h : wait_for_start_button env1 false = some (s1, true, effects)) :
    wait_for_start_button env2 true =
      some ("Button already clicked, continuing", true, []) := by
  rfl

/-- Witness for C1 at a concrete first-call environment in which the user
clicks through both stages. -/
theorem wait_for_start_button_idempotent_witness :
    wait_for_start_button { page := none } true =
      some ("Button already clicked, continuing", true, []) :=
  wait_for_start_button_idempotent
    { page := some [UIEvent.clickInitial, UIEvent.clickSubmit] } { page := none }
    ("User clicked start button - proceeding with form filling")
    [GateEffect.getPage, GateEffect.injectAndWait] (by decide)

/-- C2 counterexample: on a concrete first successful invocation the bridge
resolves to "gemini-3-pro-preview", yet `wait_for_start_button` returns the
fixed confirmation string, not that resolution value — the claim that the
action returns the bridge's resolution value to the agent is false. -/
theorem gate_discards_bridge_value_cex :
    inject_start_button_and_wait [UIEvent.clickInitial, UIEvent.clickSubmit] =
      some ("gemini-3-pro-preview") ∧
    wait_for_start_button { page := some [UIEvent.clickInitial, UIEvent.clickSubmit] } false =
      some ("User clicked start button - proceeding with form filling", true,
        [GateEffect.getPage, GateEffect.injectAndWait]) ∧
    ("User clicked start button - proceeding with form filling" : String) ≠
      "gemini-3-pro-preview" :=
  ⟨by decide, by decide, by decide⟩

/-- C2 amended: on its first successful invocation the Human Gate Action
awaits the bridge, whose resolution value is returned by
`inject_start_button_and_wait`; the action discards that value and returns the
fixed string "User clicked start button - proceeding with form filling" to the
agent. -/
theorem gate_first_success_returns_fixed_string (env : CallEnv) (events : List UIEvent)
    (v : String) (hp : env.page = some events)
    (hr : inject_start_button_and_wait events = some v) :
    wait_for_start_button env false =
      some ("User clicked start button - proceeding with form filling", true,
        [GateEffect.getPage, GateEffect.injectAndWait]) := by
  cases env with
  | mk page =>
      cases hp
      simp [wait_for_start_button, hr]

/-- Witness for the amended C2 at a concrete environment. -/
theorem gate_first_success_returns_fixed_string_witness :
    wait_for_start_button { page := some [UIEvent.clickInitial, UIEvent.clickSubmit] } false =
      some ("User clicked start button - proceeding with form filling", true,
        [GateEffect.getPage, GateEffect.injectAndWait]) :=
  gate_first_success_returns_fixed_string
    { page := some [UIEvent.clickInitial, UIEvent.clickSubmit] }
    [UIEvent.clickInitial, UIEvent.clickSubmit] dropdownValue rfl (by decide)

/-- C3: in every invocation in which `get_current_page` yields no page (the
gate queries the page only while its flag is unset), the action returns the
plain string "Error: Could not get current page" — a normal return, not an
exception — after performing only the page query. -/
theorem gate_error_string_when_no_page (env : CallEnv) (button_clicked : Bool)
    (hp : env.page = none) (hb : button_clicked = false) :
    wait_for_start_button env button_clicked =
      some ("Error: Could not get current page", button_clicked, [GateEffect.getPage]) := by
  subst hb
  cases env with
  | mk page => cases hp; rfl

/-- Witness for C3 at a concrete page-less environment. -/
theorem gate_error_string_when_no_page_witness :
    wait_for_start_button { page := none } false =
      some ("Error: Could not get current page", false, [GateEffect.getPage]) :=
  gate_error_string_when_no_page { page := none } false rfl rfl

/-- C4 counterexample: with the spec's example applicant record and the resume
path "Zresume.pdf", the composed task string does not contain the resume path
as a substring (the f-string never interpolates `resume_path`). -/
theorem task_omits_resume_path_cex :
    strContains (apply_to_job_task johnRecord ("Zresume.pdf")) ("Zresume.pdf") = false := by
  decide

/-- C4 amended: for every applicant record and resume path the composed task
contains the verbatim Python serialization of the record (and hence, for the
example record, the substrings "John", "Doe" and "john.doe@example.com"); the
resume path is not interpolated into the task — it reaches the agent through
`available_file_paths` instead. -/
theorem task_contains_applicant_record (applicant_info : List (String × PyVal))
    (resume_path : String) :
    (∃ before after, apply_to_job_task applicant_info resume_path =
        before ++ (pyDictStr applicant_info ++ after)) ∧
    strContains (apply_to_job_task johnRecord ("Zresume.pdf")) ("John") = true ∧
    strContains (apply_to_job_task johnRecord ("Zresume.pdf")) ("Doe") = true ∧
    strContains (apply_to_job_task johnRecord ("Zresume.pdf")) ("john.doe@example.com") = true :=
  ⟨⟨taskBeforeInfo, taskAfterInfo, rfl⟩, by decide, by decide, by decide⟩

/-- C5: the Task Script Composer is deterministic — the task string composed
by `apply_to_job` is a pure function of the applicant record and the resume
path, so equal inputs yield the identical string. -/
theorem task_composer_deterministic (a1 a2 : List (String × PyVal)) (r1 r2 : String)
    (ha : a1 = a2) (hr : r1 = r2) :
    apply_to_job_task a1 r1 = apply_to_job_task a2 r2 := by
  rw [ha, hr]

/-- Witness for C5 at the example record. -/
theorem task_composer_deterministic_witness :
    apply_to_job_task johnRecord ("resume.pdf") = apply_to_job_task johnRecord ("resume.pdf") :=
  task_composer_deterministic johnRecord johnRecord ("resume.pdf") ("resume.pdf") rfl rfl

/-- C6: if the applicant-data path or the resume path does not exist, `main`
raises a file-not-found error and the run reaches no milestone at all: the
data file is never opened, no browser or agent object is constructed, and the
agent never runs. -/
theorem main_missing_file_fails_early (fileExists : String → Bool)
    (applicant_data_path resume_path : String)
    (h : fileExists applicant_data_path = false ∨ fileExists resume_path = false) :
    (mainRun fileExists applicant_data_path resume_path).1 = [] ∧
    ∃ msg, (mainRun fileExists applicant_data_path resume_path).2 =
      some (MainError.fileNotFound msg) := by
  rcases h with h | h
  · simp [mainRun, h]
  · by_cases hd : fileExists applicant_data_path <;> simp [mainRun, hd, h]

/-- Witness for C6: the spec's scenario of a missing "missing.json" data path. -/
theorem main_missing_file_fails_early_witness :
    (mainRun (fun _ => false) ("missing.json") ("resume.pdf")).1 = [] ∧
    ∃ msg, (mainRun (fun _ => false) ("missing.json") ("resume.pdf")).2 =
      some (MainError.fileNotFound msg) :=
  main_missing_file_fails_early (fun _ => false) ("missing.json") ("resume.pdf") (Or.inl rfl)

/-- C7: across every sequence of user interactions, the bridge calls `resolve`
at most once, and whenever the awaiting caller resumes it observes exactly one
resolution whose value is the chosen payload (the dropdown's only value),
unchanged — even if the submit control is activated repeatedly. -/
theorem bridge_resolves_at_most_once (events : List UIEvent) :
    (bridgeRun events).resolveCalls ≤ 1 ∧
    (∀ v, inject_start_button_and_wait events = some v →
      v = dropdownValue ∧ (bridgeRun events).resolveCalls = 1) := by
  rcases bridgeRun_inv events with h | h | h
  · refine ⟨by rw [h]; decide, ?_⟩
    intro v hv
    rw [inject_start_button_and_wait, h] at hv
    exact Option.noConfusion (show (none : Option String) = some v from hv)
  · refine ⟨by rw [h]; decide, ?_⟩
    intro v hv
    rw [inject_start_button_and_wait, h] at hv
    exact Option.noConfusion (show (none : Option String) = some v from hv)
  · refine ⟨by rw [h], ?_⟩
    intro v hv
    rw [inject_start_button_and_wait, h] at hv
    have h2 : some dropdownValue = some v := hv
    exact ⟨(Option.some.inj h2).symm, by rw [h]⟩

/-- Witness for C7: a double activation of the submit control still yields one
resolution, and a clean click-through resolves to the dropdown value. -/
theorem bridge_resolves_at_most_once_witness :
    (bridgeRun [UIEvent.clickInitial, UIEvent.clickSubmit, UIEvent.clickSubmit]).resolveCalls ≤ 1 ∧
    (dropdownValue = dropdownValue ∧
      (bridgeRun [UIEvent.clickInitial, UIEvent.clickSubmit]).resolveCalls = 1) :=
  ⟨(bridge_resolves_at_most_once
      [UIEvent.clickInitial, UIEvent.clickSubmit, UIEvent.clickSubmit]).1,
   (bridge_resolves_at_most_once [UIEvent.clickInitial, UIEvent.clickSubmit]).2
     dropdownValue (by decide)⟩

/-- C8: the wait on the Handoff Signal is unbounded and uncancellable — for an
interaction sequence of any length with no submit activation the awaited
evaluation never completes (no timeout ever fires in the model, whose only
inputs are user interactions), and the caller resumes only if a submit
activation occurred. -/
theorem bridge_wait_unbounded (events : List UIEvent) :
    (UIEvent.clickSubmit ∉ events → inject_start_button_and_wait events = none) ∧
    (∀ v, inject_start_button_and_wait events = some v → UIEvent.clickSubmit ∈ events) := by
  constructor
  · intro h
    rw [inject_start_button_and_wait, bridgeRun,
      bridgeRun_promise_of_no_submit events bridgeInit h]
    rfl
  · intro v hv
    by_contra h
    rw [inject_start_button_and_wait, bridgeRun,
      bridgeRun_promise_of_no_submit events bridgeInit h] at hv
    exact Option.noConfusion (show (none : Option String) = some v from hv)

/-- Witness for C8: the caller stays suspended when the user only clicks the
initial button, and a completed await implies a submit activation happened. -/
theorem bridge_wait_unbounded_witness :
    inject_start_button_and_wait [UIEvent.clickInitial] = none ∧
    UIEvent.clickSubmit ∈ [UIEvent.clickInitial, UIEvent.clickSubmit] :=
  ⟨(bridge_wait_unbounded [UIEvent.clickInitial]).1 (by decide),
   (bridge_wait_unbounded [UIEvent.clickInitial, UIEvent.clickSubmit]).2
     dropdownValue (by decide)⟩

/-- C9: both registered custom actions return plain strings on every path that
returns: `upload_resume` unconditionally returns "Ready to upload resume"
whatever the resume path and session state (the `UploadFileAction` it builds
never influences the result), and every value `wait_for_start_button` returns
is one of its three fixed strings. -/
theorem actions_return_plain_strings (resume_path : String) (bs1 bs2 : CallEnv) (b : Bool) :
    upload_resume resume_path bs1 = "Ready to upload resume" ∧
    (∀ r : String × Bool × List GateEffect, wait_for_start_button bs2 b = some r →
      r.1 = "User clicked start button - proceeding with form filling" ∨
      r.1 = "Error: Could not get current page" ∨
      r.1 = "Button already clicked, continuing") := by
  refine ⟨rfl, ?_⟩
  intro r hr
  cases bs2 with
  | mk page =>
      cases b with
      | true =>
          simp [wait_for_start_button] at hr
          rw [← hr]
          right; right; rfl
      | false =>
          cases page with
          | none =>
              simp [wait_for_start_button] at hr
              rw [← hr]
              right; left; rfl
          | some events =>
              cases hi : inject_start_button_and_wait events with
              | none => simp [wait_for_start_button, hi] at hr
              | some v =>
                  simp [wait_for_start_button, hi] at hr
                  rw [← hr]
                  left; rfl

/-- Witness for C9 at concrete inputs, with the implication discharged at the
page-less invocation. -/
theorem actions_return_plain_strings_witness :
    upload_resume ("r.pdf") { page := none } = "Ready to upload resume" ∧
    ((("Error: Could not get current page", false,
        [GateEffect.getPage]) : String × Bool × List GateEffect).1 =
      "User clicked start button - proceeding with form filling" ∨
     (("Error: Could not get current page", false,
        [GateEffect.getPage]) : String × Bool × List GateEffect).1 =
      "Error: Could not get current page" ∨
     (("Error: Could not get current page", false,
        [GateEffect.getPage]) : String × Bool × List GateEffect).1 =
      "Button already clicked, continuing") :=
  ⟨(actions_return_plain_strings ("r.pdf") { page := none } { page := none } false).1,
   (actions_return_plain_strings ("r.pdf") { page := none } { page := none } false).2
     ("Error: Could not get current page", false, [GateEffect.getPage]) (by decide)⟩

/-- C10: an invocation that returns the page-unavailable error string leaves
`button_clicked` at false, so a later invocation (here: one whose environment
has a page and whose wait completes) re-runs the full page-query, injection
and wait sequence and only then marks the gate satisfied. -/
theorem gate_flag_false_after_page_error (env1 env2 : CallEnv) (events : List UIEvent)
    (v : String) (h1 : env1.page = none) (h2 : env2.page = some events)
    (hr : inject_start_button_and_wait events = some v) :
    wait_for_start_button env1 false =
      some ("Error: Could not get current page", false, [GateEffect.getPage]) ∧
    wait_for_start_button env2 false =
      some ("User clicked start button - proceeding with form filling", true,
        [GateEffect.getPage, GateEffect.injectAndWait]) := by
  constructor
  · cases env1 with
    | mk page => cases h1; rfl
  · cases env2 with
    | mk page =>
        cases h2
        simp [wait_for_start_button, hr]

/-- Witness for C10: a page-less first call followed by a successful second
call. -/
theorem gate_flag_false_after_page_error_witness :
    wait_for_start_button { page := none } false =
      some ("Error: Could not get current page", false, [GateEffect.getPage]) ∧
    wait_for_start_button { page := some [UIEvent.clickInitial, UIEvent.clickSubmit] } false =
      some ("User clicked start button - proceeding with form filling", true,
        [GateEffect.getPage, GateEffect.injectAndWait]) :=
  gate_flag_false_after_page_error { page := none }
    { page := some [UIEvent.clickInitial, UIEvent.clickSubmit] }
    [UIEvent.clickInitial, UIEvent.clickSubmit] dropdownValue rfl rfl (by decide)

end GeminiDemo
